import Mathlib

/-!
Verification of the flash-loan repository (Anchor/Solana programs
`mock_dex`, `arbitrage_bot`, `flash-loan`, `mock_pool`, `shared`) against its
natural-language specification.

The programs are shallowly embedded: u64 quantities become `Nat` with
explicit `% 2 ^ 64` wherever the Rust code performs unchecked (wrapping)
arithmetic, `checked_*` operations become `Option`-guarded operations, and
fallible instruction handlers become `Except` values.  Account state mutated
in place by the Rust code is threaded explicitly; a handler that fails after
mutating its accounts returns the mutated state alongside the error, which
mirrors what the program itself writes (the surrounding runtime discards
those writes when a transaction aborts).
-/

/-- The size of the u64 value space. -/
def WORD : Nat := 2 ^ 64

/-- `u64::checked_mul`: `some (a * b)` unless the product overflows u64. -/
def checkedMul (a b : Nat) : Option Nat :=
  if a * b < WORD then some (a * b) else none

/-- `u64::checked_add`: `some (a + b)` unless the sum overflows u64. -/
def checkedAdd (a b : Nat) : Option Nat :=
  if a + b < WORD then some (a + b) else none

/-- `u64::checked_sub`: `some (a - b)` unless the subtraction underflows. -/
def checkedSub (a b : Nat) : Option Nat :=
  if b ≤ a then some (a - b) else none

/-- Unchecked (wrapping) u64 addition, as performed by `+=` in a release
build: the sum reduced modulo `2 ^ 64`. -/
def u64add (a b : Nat) : Nat := (a + b) % WORD

/-- Unchecked (wrapping) u64 subtraction, as performed by `-=` in a release
build (operands are assumed `< WORD`). -/
def u64sub (a b : Nat) : Nat := (a + WORD - b) % WORD

namespace MockDex

/-- The `MockDexPool` account of `mock_dex`: internal bookkeeping balances
for the two vaults plus the pool's name. -/
structure MockDexPool where
  x_balance : Nat
  y_balance : Nat
  name : String
deriving DecidableEq, Repr

/-- The `ErrorCode` enum of `mock_dex` (the variants reachable from the
`swap` and `initialize_pool` handlers). -/
inductive DexError where
  | invalidPoolName
  | insufficientLiquidity
  | slippageTooHigh
  | invalidTokenInAccount
  | overflow
  | underflow
  | splInsufficientFunds
deriving DecidableEq, Repr

/-- `mock_dex::initialize_pool`: validates the name and seed amounts and the
initializer's source balances, then creates the pool with
`x_balance = initial_x_amount` and `y_balance = initial_y_amount`.
(`srcX`/`srcY` are the initializer's token-account balances; token-account
ownership plumbing is outside the model.)  Note the source reuses
`InvalidPoolName` for the zero-seed-amount check. -/
def initializePool (poolName : String) (initialX initialY srcX srcY : Nat) :
    Except DexError MockDexPool :=
  if poolName = "" ∨ 32 < poolName.length then .error .invalidPoolName
  else if initialX = 0 ∨ initialY = 0 then .error .invalidPoolName
  else if srcX < initialX then .error .insufficientLiquidity
  else if srcY < initialY then .error .insufficientLiquidity
  else .ok ⟨initialX, initialY, poolName⟩

/-- `mock_dex::swap`.  `inputIsX` records which side the input token account
is on (in the source it is determined by comparing mints); `fromBal` is the
balance of the caller's input token account and `toBal` the balance of the
caller's receiving token account.  The price model in the source is a fixed
1:1 rate minus a 0.3% fee: `amount_out = amount_in * (10000 - 30) / 10000`
via `checked_mul`/`checked_div`; it does not consult the reserves.  The
slippage check (`SlippageTooHigh`) precedes the liquidity check
(`InsufficientLiquidity`, which passes when the outgoing reserve is merely
`≥ amount_out`); the transfer into the vault (which fails if the caller's
balance cannot cover `amount_in`, per the token program) precedes the
reserve bookkeeping, which precedes the transfer out of the vault.
Returns the updated pool, the updated input and receiving balances, and
`amount_out`. -/
def swap (pool : MockDexPool) (inputIsX : Bool) (fromBal toBal : Nat)
    (amountIn minAmountOut : Nat) :
    Except DexError (MockDexPool × Nat × Nat × Nat) :=
  if pool.name = "" then .error .invalidPoolName
  else
    match checkedMul amountIn (10000 - 30) with
    | none => .error .overflow
    | some prod =>
      let amountOut := prod / 10000
      if amountOut < minAmountOut then .error .slippageTooHigh
      else if inputIsX then
        if pool.y_balance < amountOut then .error .insufficientLiquidity
        else if fromBal < amountIn then .error .splInsufficientFunds
        else
          match checkedAdd pool.x_balance amountIn with
          | none => .error .overflow
          | some newX =>
            match checkedSub pool.y_balance amountOut with
            | none => .error .underflow
            | some newY =>
              .ok ({ pool with x_balance := newX, y_balance := newY },
                   fromBal - amountIn, toBal + amountOut, amountOut)
      else
        if pool.x_balance < amountOut then .error .insufficientLiquidity
        else if fromBal < amountIn then .error .splInsufficientFunds
        else
          match checkedAdd pool.y_balance amountIn with
          | none => .error .overflow
          | some newY =>
            match checkedSub pool.x_balance amountOut with
            | none => .error .underflow
            | some newX =>
              .ok ({ pool with x_balance := newX, y_balance := newY },
                   fromBal - amountIn, toBal + amountOut, amountOut)

end MockDex

deriving instance DecidableEq for Except

namespace ArbitrageBot

/-- The `ArbitrageBotState` account of `arbitrage_bot`: the reentrancy latch
and the cumulative counters (`owner` is account plumbing and not modelled). -/
structure ArbitrageBotState where
  is_executing : Bool
  total_trades : Nat
  total_profit : Nat
deriving DecidableEq, Repr

/-- The `ErrorCode` enum of `arbitrage_bot`, together with a constructor
embedding the `mock_dex` errors that propagate unchanged through the swap
CPIs. -/
inductive ArbError where
  | insufficientProfit
  | reentrancyDetected
  | invalidLoanAmount
  | invalidProfitRequirement
  | calculationOverflow
  | dex (e : MockDex.DexError)
deriving DecidableEq, Repr

/-- `ArbitrageHandler::calculate_min_amount_out`: the fee-adjusted estimate
`amount_in * 9970 / 10000` reduced to 90% (`* 9000 / 10000`), each
multiplication checked against u64 overflow. -/
def calculate_min_amount_out (amountIn : Nat) : Except ArbError Nat :=
  match checkedMul amountIn 9970 with
  | none => .error .calculationOverflow
  | some p =>
    let estimatedOut := p / 10000
    match checkedMul estimatedOut 9000 with
    | none => .error .calculationOverflow
    | some q => .ok (q / 10000)

/-- The accounts touched by `execute_arbitrage_atomic`: the bot state, the
two DEX pools, and the balances of the caller's `token_in_account`,
`user_token_x` and `user_token_y` token accounts. -/
structure ArbAccounts where
  bot : ArbitrageBotState
  dexPoolA : MockDex.MockDexPool
  dexPoolB : MockDex.MockDexPool
  tokenInBal : Nat
  userTokenX : Nat
  userTokenY : Nat
deriving DecidableEq, Repr

/-- `ArbitrageHandler::execute_first_swap`: swap `loan_amount` of token X on
DEX A with `min_amount_out = calculate_min_amount_out loan_amount`; the
returned value is the balance of `user_token_y` after the swap. -/
def execute_first_swap (st : ArbAccounts) (loanAmount : Nat) :
    Except ArbError (ArbAccounts × Nat) :=
  match calculate_min_amount_out loanAmount with
  | .error e => .error e
  | .ok minOut =>
    match MockDex.swap st.dexPoolA true st.tokenInBal st.userTokenY
        loanAmount minOut with
    | .error e => .error (.dex e)
    | .ok (poolA, fromBal, toBal, _) =>
      .ok ({ st with dexPoolA := poolA, tokenInBal := fromBal,
                     userTokenY := toBal }, toBal)

/-- `ArbitrageHandler::execute_second_swap`: swap `token_y_amount` of token Y
on DEX B with `min_amount_out = calculate_min_amount_out token_y_amount`;
the returned value is the balance of `user_token_x` after the swap. -/
def execute_second_swap (st : ArbAccounts) (tokenYAmount : Nat) :
    Except ArbError (ArbAccounts × Nat) :=
  match calculate_min_amount_out tokenYAmount with
  | .error e => .error e
  | .ok minOut =>
    match MockDex.swap st.dexPoolB false st.userTokenY st.userTokenX
        tokenYAmount minOut with
    | .error e => .error (.dex e)
    | .ok (poolB, fromBal, toBal, _) =>
      .ok ({ st with dexPoolB := poolB, userTokenY := fromBal,
                     userTokenX := toBal }, toBal)

/-- `arbitrage_bot::execute_arbitrage_atomic`.  CHECK: reject when
`is_executing` is set (`ReentrancyDetected`), when `loan_amount = 0` or when
`min_expected_profit = 0`.  EFFECTS: set `is_executing` and bump
`total_trades` (unchecked `+= 1`).  INTERACTIONS: the two swaps.  Finally
require `saturating_sub(second_result, loan_amount) ≥ min_expected_profit`
(`InsufficientProfit`), accumulate `total_profit` (unchecked `+=`) and clear
`is_executing`.  The pair's second component is the account state as written
by the program when the handler returns; on the error paths after the
EFFECTS block this state still has `is_executing = true` — the reset at the
end of the handler is only reached on success. -/
def execute_arbitrage_atomic (st : ArbAccounts)
    (loanAmount minExpectedProfit : Nat) : Except ArbError Nat × ArbAccounts :=
  if st.bot.is_executing then (.error .reentrancyDetected, st)
  else if loanAmount = 0 then (.error .invalidLoanAmount, st)
  else if minExpectedProfit = 0 then (.error .invalidProfitRequirement, st)
  else
    let st1 := { st with bot := { st.bot with
      is_executing := true,
      total_trades := u64add st.bot.total_trades 1 } }
    match execute_first_swap st1 loanAmount with
    | .error e => (.error e, st1)
    | .ok (st2, firstResult) =>
      match execute_second_swap st2 firstResult with
      | .error e => (.error e, st2)
      | .ok (st3, secondResult) =>
        let actualProfit := secondResult - loanAmount
        if actualProfit < minExpectedProfit then (.error .insufficientProfit, st3)
        else
          (.ok actualProfit,
           { st3 with bot := { st3.bot with
               total_profit := u64add st3.bot.total_profit actualProfit,
               is_executing := false } })

end ArbitrageBot

namespace FlashLoan

/-- The `PoolStatus` enum of `shared`. -/
inductive PoolStatus where
  | initializing
  | active
  | paused
  | emergency
  | deprecated
deriving DecidableEq, Repr

/-- The `MockPoolState` account of `shared` (the fields used by the
flash-loan coordinator; `authority`, timestamps and `bump` are account
plumbing and not modelled).  `fee_bps` is a u16. -/
structure MockPoolState where
  balance : Nat
  fee_bps : Nat
  total_borrowed : Nat
  total_repaid : Nat
  status : PoolStatus
deriving DecidableEq, Repr

/-- `MockPoolState::can_lend`: the pool status is `Active`. -/
def can_lend (p : MockPoolState) : Bool := p.status = .active

/-- `MockPoolState::has_sufficient_funds`: `balance >= amount`. -/
def has_sufficient_funds (p : MockPoolState) (amount : Nat) : Bool :=
  amount ≤ p.balance

/-- `MockPoolState::calculate_fee`: widen `amount` and `fee_bps` to u128,
`checked_mul` (so `none` only if the 128-bit product overflows), divide by
10000 (`checked_div` by a non-zero constant never fails), then cast the u128
quotient back with `as u64`, which truncates modulo `2 ^ 64`. -/
def calculate_fee (p : MockPoolState) (amount : Nat) : Option Nat :=
  if amount * p.fee_bps < 2 ^ 128 then
    some ((amount * p.fee_bps / 10000) % WORD)
  else none

/-- `MockPoolState::get_utilization_rate`: 0 when
`balance + total_borrowed == 0`, otherwise
`total_borrowed * 10000 / (balance + total_borrowed)`; both the sum and the
product are unchecked u64 arithmetic, hence reduced modulo `2 ^ 64`. -/
def get_utilization_rate (p : MockPoolState) : Nat :=
  if (p.balance + p.total_borrowed) % WORD = 0 then 0
  else ((p.total_borrowed * 10000) % WORD) / ((p.balance + p.total_borrowed) % WORD)

/-- The `FlashLoanError` enum of `flash-loan` (reachable variants), with a
constructor embedding the errors propagated from the arbitrage CPI.
`feeCalculation` stands for the error object attached by `calculate_fee`'s
`ok_or_else`. -/
inductive FlashLoanError where
  | insufficientFundsForRepayment
  | insufficientPoolBalance
  | poolNotActive
  | feeCalculation
  | arb (e : ArbitrageBot.ArbError)
deriving DecidableEq, Repr

/-- The `TransactionRecord` account of `shared` (`user` and `bump` are
account plumbing and not modelled; the clock reading `now` supplies
`transaction_id` and `timestamp`). -/
structure TransactionRecord where
  transaction_id : Nat
  loan_amount : Nat
  fee : Nat
  profit : Nat
  net_profit : Nat
  timestamp : Nat
deriving DecidableEq, Repr

/-- The accounts touched by `atomic_flash_loan_with_arbitrage`: the loan
pool state, the lamport balances of the pool account and the borrower, the
arbitrage-side accounts, and the transaction record being created. -/
structure FlashAccounts where
  pool : MockPoolState
  poolLamports : Nat
  borrowerLamports : Nat
  arb : ArbitrageBot.ArbAccounts
  record : Option TransactionRecord
deriving DecidableEq, Repr

/-- `FlashLoanHandler::validate_and_prepare`: compute the fee, then require
`can_lend` (`PoolNotActive`) and `has_sufficient_funds`
(`InsufficientPoolBalance`); returns the fee. -/
def validate_and_prepare (st : FlashAccounts) (amount : Nat) :
    Except FlashLoanError Nat :=
  match calculate_fee st.pool amount with
  | none => .error .feeCalculation
  | some fee =>
    if ¬ can_lend st.pool then .error .poolNotActive
    else if ¬ has_sufficient_funds st.pool amount then .error .insufficientPoolBalance
    else .ok fee

/-- The bookkeeping half of `FlashLoanHandler::execute_loan`:
`balance -= amount; total_borrowed += amount` (unchecked u64 ops), executed
before any funds move. -/
def loanBookkeeping (st : FlashAccounts) (amount : Nat) : FlashAccounts :=
  { st with pool := { st.pool with
      balance := u64sub st.pool.balance amount,
      total_borrowed := u64add st.pool.total_borrowed amount } }

/-- The transfer half of `FlashLoanHandler::execute_loan`: move `amount`
lamports from the pool account to the borrower (unchecked `-=`/`+=` on the
lamport balances). -/
def loanTransfer (st : FlashAccounts) (amount : Nat) : FlashAccounts :=
  { st with poolLamports := u64sub st.poolLamports amount,
            borrowerLamports := u64add st.borrowerLamports amount }

/-- `FlashLoanHandler::execute_loan`: bookkeeping strictly before the
lamport transfer. -/
def execute_loan (st : FlashAccounts) (amount : Nat) : FlashAccounts :=
  loanTransfer (loanBookkeeping st amount) amount

/-- The bookkeeping half of `FlashLoanHandler::process_repayment`:
`balance += total_repayment; total_repaid += total_repayment` (unchecked),
executed before funds are pulled from the borrower. -/
def repayBookkeeping (st : FlashAccounts) (totalRepayment : Nat) : FlashAccounts :=
  { st with pool := { st.pool with
      balance := u64add st.pool.balance totalRepayment,
      total_repaid := u64add st.pool.total_repaid totalRepayment } }

/-- The transfer half of `FlashLoanHandler::process_repayment`: move
`total_repayment` lamports from the borrower to the pool account. -/
def repayTransfer (st : FlashAccounts) (totalRepayment : Nat) : FlashAccounts :=
  { st with borrowerLamports := u64sub st.borrowerLamports totalRepayment,
            poolLamports := u64add st.poolLamports totalRepayment }

/-- `FlashLoanHandler::process_repayment`: `total_repayment = amount + fee`
(unchecked u64 add); require the borrower's lamports to cover it
(`InsufficientFundsForRepayment`); then bookkeeping strictly before the
lamport transfer. -/
def process_repayment (st : FlashAccounts) (amount fee : Nat) :
    Except FlashLoanError FlashAccounts :=
  let totalRepayment := u64add amount fee
  if st.borrowerLamports < totalRepayment then
    .error .insufficientFundsForRepayment
  else .ok (repayTransfer (repayBookkeeping st totalRepayment) totalRepayment)

/-- `FlashLoanHandler::record_transaction`: create the transaction record
with `loan_amount`, `fee` and `profit` as passed, and
`net_profit = actual_profit.saturating_sub(fee)` (on `Nat`, truncated
subtraction is exactly saturating subtraction). -/
def record_transaction (st : FlashAccounts) (amount fee actualProfit now : Nat) :
    FlashAccounts :=
  { st with
    record := some { transaction_id := now, loan_amount := amount, fee := fee,
                     profit := actualProfit, net_profit := actualProfit - fee,
                     timestamp := now } }

/-- `flash_loan_program::atomic_flash_loan_with_arbitrage`: validate and
compute the fee, issue the loan, run the arbitrage CPI, repay, record.  As
with the arbitrage handler, the returned state is what the program wrote;
on an error the runtime discards it. -/
def atomic_flash_loan_with_arbitrage (st : FlashAccounts)
    (amount minExpectedProfit now : Nat) :
    Except FlashLoanError Unit × FlashAccounts :=
  match validate_and_prepare st amount with
  | .error e => (.error e, st)
  | .ok fee =>
    let st1 := execute_loan st amount
    match ArbitrageBot.execute_arbitrage_atomic st1.arb amount minExpectedProfit with
    | (.error e, arb1) => (.error (.arb e), { st1 with arb := arb1 })
    | (.ok actualProfit, arb1) =>
      let st2 := { st1 with arb := arb1 }
      match process_repayment st2 amount fee with
      | .error e => (.error e, st2)
      | .ok st3 => (.ok (), record_transaction st3 amount fee actualProfit now)

end FlashLoan

/-! ### Arithmetic helper lemmas -/

theorem u64add_eq (a b : Nat) (h : a + b < WORD) : u64add a b = a + b :=
  Nat.mod_eq_of_lt h

theorem u64sub_eq (a b : Nat) (hba : b ≤ a) (ha : a < WORD) : u64sub a b = a - b := by
  unfold u64sub
  have h1 : a + WORD - b = (a - b) + WORD := by omega
  rw [h1, Nat.add_mod_right]
  exact Nat.mod_eq_of_lt (by omega)

theorem checkedMul_some {a b c : Nat} (h : checkedMul a b = some c) :
    a * b < WORD ∧ c = a * b := by
  unfold checkedMul at h
  split at h
  · exact ⟨by assumption, by injection h; omega⟩
  · exact absurd h (by simp)

theorem fee_quotient_le (a : Nat) : a * (10000 - 30) / 10000 ≤ a := by
  calc a * (10000 - 30) / 10000 ≤ a * 10000 / 10000 :=
        Nat.div_le_div_right (Nat.mul_le_mul_left a (by omega))
    _ = a := Nat.mul_div_cancel a (by omega)

theorem checkedAdd_some {a b c : Nat} (h : checkedAdd a b = some c) :
    a + b < WORD ∧ c = a + b := by
  unfold checkedAdd at h
  split at h
  · exact ⟨by assumption, by injection h; omega⟩
  · exact absurd h (by simp)

theorem checkedSub_some {a b c : Nat} (h : checkedSub a b = some c) :
    b ≤ a ∧ c = a - b := by
  unfold checkedSub at h
  split at h
  · exact ⟨by assumption, by injection h; omega⟩
  · exact absurd h (by simp)

/-! ### Characterization of a successful `mock_dex::swap` -/

/-- A successful swap: the pool name is nonempty, the fee product fits in
u64, `amount_out` is the reserve-independent fixed-rate formula, the
slippage floor holds, the caller's input balance covered `amount_in`, the
caller balances move by `amount_in`/`amount_out`, and the reserves move by
`amount_in` on the input side and `amount_out` on the output side (the
output reserve merely had to cover `amount_out`, so it may end at zero). -/
theorem swap_ok_elim {pool : MockDex.MockDexPool} {inputIsX : Bool}
    {fromBal toBal amountIn minAmountOut : Nat}
    {pool' : MockDex.MockDexPool} {fromBal' toBal' amountOut : Nat}
    (h : MockDex.swap pool inputIsX fromBal toBal amountIn minAmountOut =
      .ok (pool', fromBal', toBal', amountOut)) :
    ¬ pool.name = "" ∧ amountIn * (10000 - 30) < WORD ∧
    amountOut = amountIn * (10000 - 30) / 10000 ∧
    minAmountOut ≤ amountOut ∧ amountIn ≤ fromBal ∧
    fromBal' = fromBal - amountIn ∧ toBal' = toBal + amountOut ∧
    ((inputIsX = true ∧ amountOut ≤ pool.y_balance ∧
        pool'.x_balance = pool.x_balance + amountIn ∧
        pool'.y_balance = pool.y_balance - amountOut) ∨
     (inputIsX = false ∧ amountOut ≤ pool.x_balance ∧
        pool'.x_balance = pool.x_balance - amountOut ∧
        pool'.y_balance = pool.y_balance + amountIn)) := by
  unfold MockDex.swap at h
  by_cases hname : pool.name = ""
  · simp [hname] at h
  rw [if_neg hname] at h
  cases hmul : checkedMul amountIn (10000 - 30) with
  | none => rw [hmul] at h; exact absurd h (by simp)
  | some prod =>
    rw [hmul] at h
    obtain ⟨hlt, rfl⟩ := checkedMul_some hmul
    simp only at h
    by_cases hslip : amountIn * (10000 - 30) / 10000 < minAmountOut
    · rw [if_pos hslip] at h; exact absurd h (by simp)
    rw [if_neg hslip] at h
    cases inputIsX with
    | true =>
      rw [if_pos rfl] at h
      by_cases hliq : pool.y_balance < amountIn * (10000 - 30) / 10000
      · rw [if_pos hliq] at h; exact absurd h (by simp)
      rw [if_neg hliq] at h
      by_cases hfun : fromBal < amountIn
      · rw [if_pos hfun] at h; exact absurd h (by simp)
      rw [if_neg hfun] at h
      cases hadd : checkedAdd pool.x_balance amountIn with
      | none => rw [hadd] at h; exact absurd h (by simp)
      | some newX =>
        rw [hadd] at h
        cases hsub : checkedSub pool.y_balance (amountIn * (10000 - 30) / 10000) with
        | none => rw [hsub] at h; exact absurd h (by simp)
        | some newY =>
          rw [hsub] at h
          obtain ⟨haddlt, rfl⟩ := checkedAdd_some hadd
          obtain ⟨hsuble, rfl⟩ := checkedSub_some hsub
          simp only [Except.ok.injEq, Prod.mk.injEq] at h
          obtain ⟨hpool, hfrom, hto, hout⟩ := h
          subst hout
          refine ⟨hname, hlt, rfl, by omega, by omega, by omega, by omega, Or.inl ⟨rfl, by omega, ?_, ?_⟩⟩
          · rw [← hpool]
          · rw [← hpool]
    | false =>
      rw [if_neg (by simp)] at h
      by_cases hliq : pool.x_balance < amountIn * (10000 - 30) / 10000
      · rw [if_pos hliq] at h; exact absurd h (by simp)
      rw [if_neg hliq] at h
      by_cases hfun : fromBal < amountIn
      · rw [if_pos hfun] at h; exact absurd h (by simp)
      rw [if_neg hfun] at h
      cases hadd : checkedAdd pool.y_balance amountIn with
      | none => rw [hadd] at h; exact absurd h (by simp)
      | some newY =>
        rw [hadd] at h
        cases hsub : checkedSub pool.x_balance (amountIn * (10000 - 30) / 10000) with
        | none => rw [hsub] at h; exact absurd h (by simp)
        | some newX =>
          rw [hsub] at h
          obtain ⟨haddlt, rfl⟩ := checkedAdd_some hadd
          obtain ⟨hsuble, rfl⟩ := checkedSub_some hsub
          simp only [Except.ok.injEq, Prod.mk.injEq] at h
          obtain ⟨hpool, hfrom, hto, hout⟩ := h
          subst hout
          refine ⟨hname, hlt, rfl, by omega, by omega, by omega, by omega, Or.inr ⟨rfl, by omega, ?_, ?_⟩⟩
          · rw [← hpool]
          · rw [← hpool]

/-- The swap fails with `SlippageTooHigh` exactly when the pool name is
valid, the fee product fits in u64, and the fixed-rate output is below the
caller's floor. -/
theorem swap_slippage_iff (pool : MockDex.MockDexPool) (inputIsX : Bool)
    (fromBal toBal amountIn minAmountOut : Nat) :
    MockDex.swap pool inputIsX fromBal toBal amountIn minAmountOut =
      .error .slippageTooHigh ↔
    ¬ pool.name = "" ∧ amountIn * (10000 - 30) < WORD ∧
      amountIn * (10000 - 30) / 10000 < minAmountOut := by
  unfold MockDex.swap
  by_cases hname : pool.name = ""
  · simp [hname]
  rw [if_neg hname]
  by_cases hlt : amountIn * (10000 - 30) < WORD
  · have hmul : checkedMul amountIn (10000 - 30) = some (amountIn * (10000 - 30)) := by
      unfold checkedMul; rw [if_pos hlt]
    rw [hmul]
    simp only
    by_cases hslip : amountIn * (10000 - 30) / 10000 < minAmountOut
    · simp [hslip, hname, hlt]
    rw [if_neg hslip]
    constructor
    · intro h
      cases hix : inputIsX
      · rw [hix] at h
        rw [if_neg (by simp)] at h
        split at h
        · exact absurd h (by simp)
        split at h
        · exact absurd h (by simp)
        split at h
        · exact absurd h (by simp)
        split at h
        · exact absurd h (by simp)
        exact absurd h (by simp)
      · rw [hix] at h
        rw [if_pos rfl] at h
        split at h
        · exact absurd h (by simp)
        split at h
        · exact absurd h (by simp)
        split at h
        · exact absurd h (by simp)
        split at h
        · exact absurd h (by simp)
        exact absurd h (by simp)
    · intro ⟨_, _, h3⟩
      exact absurd h3 hslip
  · have hmul : checkedMul amountIn (10000 - 30) = none := by
      unfold checkedMul; rw [if_neg hlt]
    rw [hmul]
    simp [hname, hlt]

/-- The swap fails with `InsufficientLiquidity` exactly when the pool name
is valid, the fee product fits in u64, the slippage floor passes, and the
outgoing reserve is STRICTLY below `amount_out` (equality passes). -/
theorem swap_liquidity_iff (pool : MockDex.MockDexPool) (inputIsX : Bool)
    (fromBal toBal amountIn minAmountOut : Nat) :
    MockDex.swap pool inputIsX fromBal toBal amountIn minAmountOut =
      .error .insufficientLiquidity ↔
    ¬ pool.name = "" ∧ amountIn * (10000 - 30) < WORD ∧
      minAmountOut ≤ amountIn * (10000 - 30) / 10000 ∧
      (if inputIsX then pool.y_balance else pool.x_balance) <
        amountIn * (10000 - 30) / 10000 := by
  unfold MockDex.swap
  by_cases hname : pool.name = ""
  · simp [hname]
  rw [if_neg hname]
  by_cases hlt : amountIn * (10000 - 30) < WORD
  · have hmul : checkedMul amountIn (10000 - 30) = some (amountIn * (10000 - 30)) := by
      unfold checkedMul; rw [if_pos hlt]
    rw [hmul]
    simp only
    by_cases hslip : amountIn * (10000 - 30) / 10000 < minAmountOut
    · rw [if_pos hslip]
      simp
      intro _ _ h
      omega
    rw [if_neg hslip]
    cases hix : inputIsX
    · rw [if_neg (by simp)]
      simp only [if_neg (by simp : ¬ (false = true))]
      by_cases hliq : pool.x_balance < amountIn * (10000 - 30) / 10000
      · rw [if_pos hliq]
        simp [hname, hlt, hliq]
        omega
      · rw [if_neg hliq]
        constructor
        · intro h
          split at h
          · exact absurd h (by simp)
          split at h
          · exact absurd h (by simp)
          split at h
          · exact absurd h (by simp)
          exact absurd h (by simp)
        · intro ⟨_, _, _, h4⟩
          exact absurd h4 hliq
    · rw [if_pos rfl]
      simp only [if_pos (rfl : (true = true))]
      by_cases hliq : pool.y_balance < amountIn * (10000 - 30) / 10000
      · rw [if_pos hliq]
        simp [hname, hlt, hliq]
        omega
      · rw [if_neg hliq]
        constructor
        · intro h
          split at h
          · exact absurd h (by simp)
          split at h
          · exact absurd h (by simp)
          split at h
          · exact absurd h (by simp)
          exact absurd h (by simp)
        · intro ⟨_, _, _, h4⟩
          exact absurd h4 hliq
  · have hmul : checkedMul amountIn (10000 - 30) = none := by
      unfold checkedMul; rw [if_neg hlt]
    rw [hmul]
    simp [hname, hlt]

/-- Claim C1 is false on the code: at reserve_in = reserve_out = 1,000,000
and amount_in = 10,000 the swap succeeds and outputs 9,970 — the
reserve-independent fixed-rate value — while the constant-product formula
the claim states evaluates to 9,871. -/
theorem c1_swap_constant_product_refuted :
    MockDex.swap ⟨1000000, 1000000, "test-pool"⟩ true 10000 0 10000 0 =
      .ok (⟨1010000, 990030, "test-pool"⟩, 0, 9970, 9970) ∧
    10000 * (10000 - 30) * 1000000 / (1000000 * 10000 + 10000 * (10000 - 30)) = 9871 ∧
    (9970 : Nat) ≠ 9871 :=
  ⟨by decide, by decide, by decide⟩

/-- Claim C1 (amended): every successful swap outputs
`floor(amount_in * (10000 - 30) / 10000)`, a fixed 1:1 rate net of the
30-bps fee that does not depend on the reserves at all. -/
theorem c1_swap_output_formula (pool : MockDex.MockDexPool) (inputIsX : Bool)
    (fromBal toBal amountIn minAmountOut : Nat) (pool' : MockDex.MockDexPool)
    (fromBal' toBal' amountOut : Nat)
    (h : MockDex.swap pool inputIsX fromBal toBal amountIn minAmountOut =
      .ok (pool', fromBal', toBal', amountOut)) :
    amountOut = amountIn * (10000 - 30) / 10000 :=
  (swap_ok_elim h).2.2.1

/-- Witness for the amended C1 theorem at the claim's concrete input. -/
theorem c1_swap_output_formula_witness :
    (9970 : Nat) = 10000 * (10000 - 30) / 10000 :=
  c1_swap_output_formula ⟨1000000, 1000000, "test-pool"⟩ true 10000 0 10000 0
    ⟨1010000, 990030, "test-pool"⟩ 0 9970 9970 (by decide)

/-- Claim C2 is false on the code: on the freshly initialized pool
(1,000,000 / 9,970), a successful swap of 10,000 drives the product of the
reserves from 9.97e9 down to 0 and leaves the outgoing reserve at exactly
0, so neither is the product non-decreasing nor do both reserves stay
strictly positive. -/
theorem c2_product_refuted :
    MockDex.initializePool "test-pool" 1000000 9970 1000000 1000000 =
      .ok ⟨1000000, 9970, "test-pool"⟩ ∧
    MockDex.swap ⟨1000000, 9970, "test-pool"⟩ true 10000 0 10000 0 =
      .ok (⟨1010000, 0, "test-pool"⟩, 0, 9970, 9970) ∧
    1010000 * 0 < 1000000 * 9970 ∧ ¬ ((0 : Nat) < 0) :=
  ⟨by decide, by decide, by decide, by decide⟩

/-- Claim C2 (amended): across every successful swap the SUM of the two
reserves is non-decreasing (the pool keeps `amount_in - amount_out ≥ 0`),
though the product may decrease and the outgoing reserve may reach zero. -/
theorem c2_reserve_sum_nondecreasing (pool : MockDex.MockDexPool) (inputIsX : Bool)
    (fromBal toBal amountIn minAmountOut : Nat) (pool' : MockDex.MockDexPool)
    (fromBal' toBal' amountOut : Nat)
    (h : MockDex.swap pool inputIsX fromBal toBal amountIn minAmountOut =
      .ok (pool', fromBal', toBal', amountOut)) :
    pool.x_balance + pool.y_balance ≤ pool'.x_balance + pool'.y_balance ∧
    amountOut ≤ amountIn := by
  obtain ⟨-, -, hout, -, -, -, -, hcase⟩ := swap_ok_elim h
  have hle : amountOut ≤ amountIn := hout ▸ fee_quotient_le amountIn
  rcases hcase with ⟨-, hy, hx', hy'⟩ | ⟨-, hx, hx', hy'⟩ <;> exact ⟨by omega, hle⟩

/-- Witness for the amended C2 theorem at a concrete successful swap. -/
theorem c2_reserve_sum_nondecreasing_witness :
    1000000 + 1000000 ≤ 1010000 + 990030 ∧ (9970 : Nat) ≤ 10000 := by
  exact c2_reserve_sum_nondecreasing ⟨1000000, 1000000, "test-pool"⟩ true
    10000 0 10000 0 ⟨1010000, 990030, "test-pool"⟩ 0 9970 9970 (by decide)

/-- Claim C4 (amended): `SlippageTooHigh` (the spec's `SlippageExceeded`)
is raised iff the computed output is below the caller's floor;
`InsufficientLiquidity` is raised iff the outgoing reserve is STRICTLY
below `amount_out` — equality passes, so a successful swap only guarantees
the outgoing reserve ends at `reserve_out - amount_out ≥ 0`, which can be
exactly zero. -/
theorem c4_error_conditions (pool : MockDex.MockDexPool) (inputIsX : Bool)
    (fromBal toBal amountIn minAmountOut : Nat) :
    (MockDex.swap pool inputIsX fromBal toBal amountIn minAmountOut =
        .error .slippageTooHigh ↔
      ¬ pool.name = "" ∧ amountIn * (10000 - 30) < WORD ∧
        amountIn * (10000 - 30) / 10000 < minAmountOut) ∧
    (MockDex.swap pool inputIsX fromBal toBal amountIn minAmountOut =
        .error .insufficientLiquidity ↔
      ¬ pool.name = "" ∧ amountIn * (10000 - 30) < WORD ∧
        minAmountOut ≤ amountIn * (10000 - 30) / 10000 ∧
        (if inputIsX then pool.y_balance else pool.x_balance) <
          amountIn * (10000 - 30) / 10000) ∧
    (∀ pool' fromBal' toBal' amountOut,
      MockDex.swap pool inputIsX fromBal toBal amountIn minAmountOut =
        .ok (pool', fromBal', toBal', amountOut) →
      minAmountOut ≤ amountOut ∧
      amountOut ≤ (if inputIsX then pool.y_balance else pool.x_balance) ∧
      (if inputIsX then pool'.y_balance else pool'.x_balance) =
        (if inputIsX then pool.y_balance else pool.x_balance) - amountOut) := by
  refine ⟨swap_slippage_iff pool inputIsX fromBal toBal amountIn minAmountOut,
          swap_liquidity_iff pool inputIsX fromBal toBal amountIn minAmountOut,
          ?_⟩
  intro pool' fromBal' toBal' amountOut h
  obtain ⟨-, -, -, hmin, -, -, -, hcase⟩ := swap_ok_elim h
  rcases hcase with ⟨hix, hy, hx', hy'⟩ | ⟨hix, hx, hx', hy'⟩ <;> subst hix <;>
    simp_all

/-- Witness for the amended C4 theorem: a concrete swap whose output 9,970
is below the floor 9,999 fails with `SlippageTooHigh`. -/
theorem c4_error_conditions_witness :
    MockDex.swap ⟨5, 5, "p"⟩ true 100 0 10000 9999 = .error .slippageTooHigh :=
  (c4_error_conditions ⟨5, 5, "p"⟩ true 100 0 10000 9999).1.mpr
    ⟨by decide, by decide, by decide⟩

/-- Claim C4 is false on the code at the boundary: with outgoing reserve
9,970 and `amount_out = 9,970` (so `amount_out ≥ reserve_out`), the swap
does NOT fail with `InsufficientLiquidity` — it succeeds and leaves the
outgoing reserve at exactly 0, not strictly positive. -/
theorem c4_boundary_refuted :
    MockDex.swap ⟨1000000, 9970, "pool-b"⟩ true 10000 0 10000 0 =
      .ok (⟨1010000, 0, "pool-b"⟩, 0, 9970, 9970) ∧
    (9970 : Nat) ≥ 9970 ∧ ¬ ((0 : Nat) < 0) :=
  ⟨by decide, by decide, by decide⟩

open ArbitrageBot FlashLoan

/-- `execute_first_swap` never touches the bot state. -/
theorem execute_first_swap_bot {st : ArbAccounts} {a : Nat}
    {st' : ArbAccounts} {r : Nat}
    (h : execute_first_swap st a = .ok (st', r)) : st'.bot = st.bot := by
  unfold execute_first_swap at h
  cases hm : calculate_min_amount_out a with
  | error e => rw [hm] at h; simp at h
  | ok m =>
    rw [hm] at h
    simp only at h
    cases hs : MockDex.swap st.dexPoolA true st.tokenInBal st.userTokenY a m with
    | error e => rw [hs] at h; simp at h
    | ok r4 =>
      obtain ⟨pA, fB, tB, out⟩ := r4
      rw [hs] at h
      simp only [Except.ok.injEq, Prod.mk.injEq] at h
      obtain ⟨h1, -⟩ := h
      rw [← h1]

/-- `execute_second_swap` never touches the bot state. -/
theorem execute_second_swap_bot {st : ArbAccounts} {a : Nat}
    {st' : ArbAccounts} {r : Nat}
    (h : execute_second_swap st a = .ok (st', r)) : st'.bot = st.bot := by
  unfold execute_second_swap at h
  cases hm : calculate_min_amount_out a with
  | error e => rw [hm] at h; simp at h
  | ok m =>
    rw [hm] at h
    simp only at h
    cases hs : MockDex.swap st.dexPoolB false st.userTokenY st.userTokenX a m with
    | error e => rw [hs] at h; simp at h
    | ok r4 =>
      obtain ⟨pB, fB, tB, out⟩ := r4
      rw [hs] at h
      simp only [Except.ok.injEq, Prod.mk.injEq] at h
      obtain ⟨h1, -⟩ := h
      rw [← h1]

/-- The bot state written by `execute_arbitrage_atomic` on a call that
passes input validation: every error path after the EFFECTS block leaves
`is_executing = true` with `total_trades` bumped and `total_profit`
untouched; the success path leaves `is_executing = false` with both
counters bumped (u64-wrapping adds). -/
theorem execute_arbitrage_atomic_bot (st : ArbAccounts) (a p : Nat)
    (hex : st.bot.is_executing = false) (ha : a ≠ 0) (hp : p ≠ 0) :
    (∀ e st', execute_arbitrage_atomic st a p = (.error e, st') →
       st'.bot = ⟨true, u64add st.bot.total_trades 1, st.bot.total_profit⟩) ∧
    (∀ v st', execute_arbitrage_atomic st a p = (.ok v, st') →
       st'.bot = ⟨false, u64add st.bot.total_trades 1,
                  u64add st.bot.total_profit v⟩) := by
  unfold execute_arbitrage_atomic
  rw [if_neg (by simp [hex]), if_neg ha, if_neg hp]
  simp only
  cases h1 : execute_first_swap { st with bot := { st.bot with is_executing := true, total_trades := u64add st.bot.total_trades 1 } } a with
  | error e =>
    refine ⟨?_, ?_⟩
    · intro e' st' h
      simp only [Prod.mk.injEq] at h
      obtain ⟨-, h2⟩ := h
      rw [← h2]
    · intro v st' h
      simp only [Prod.mk.injEq] at h
      exact absurd h.1 (by simp)
  | ok r2 =>
    obtain ⟨st2, firstResult⟩ := r2
    have hb2 : st2.bot = { st.bot with is_executing := true, total_trades := u64add st.bot.total_trades 1 } := execute_first_swap_bot h1
    simp only
    cases h2 : execute_second_swap st2 firstResult with
    | error e =>
      refine ⟨?_, ?_⟩
      · intro e' st' h
        simp only [Prod.mk.injEq] at h
        obtain ⟨-, h3⟩ := h
        rw [← h3, hb2]
      · intro v st' h
        simp only [Prod.mk.injEq] at h
        exact absurd h.1 (by simp)
    | ok r3 =>
      obtain ⟨st3, secondResult⟩ := r3
      have hb3 : st3.bot = st2.bot := execute_second_swap_bot h2
      simp only
      by_cases hprof : secondResult - a < p
      · rw [if_pos hprof]
        refine ⟨?_, ?_⟩
        · intro e' st' h
          simp only [Prod.mk.injEq] at h
          obtain ⟨-, h3⟩ := h
          rw [← h3, hb3, hb2]
        · intro v st' h
          simp only [Prod.mk.injEq] at h
          exact absurd h.1 (by simp)
      · rw [if_neg hprof]
        refine ⟨?_, ?_⟩
        · intro e' st' h
          simp only [Prod.mk.injEq] at h
          exact absurd h.1 (by simp)
        · intro v st' h
          simp only [Prod.mk.injEq] at h
          obtain ⟨hv, h3⟩ := h
          rw [← h3, hb3, hb2]
          injection hv with hv
          rw [← hv]

/-- Claim C3 (amended): a call made while `is_executing` is set fails with
`ReentrancyDetected` and changes nothing; after a successful call
`is_executing` is false; but a call that passes validation and then fails
returns with `is_executing` still true — the handler resets the flag only
on the success path and relies on the runtime discarding writes of an
aborted transaction. -/
theorem c3_reentrancy_latch (st : ArbAccounts) (loanAmount minExpectedProfit : Nat) :
    (st.bot.is_executing = true →
      execute_arbitrage_atomic st loanAmount minExpectedProfit =
        (.error .reentrancyDetected, st)) ∧
    (∀ v st', execute_arbitrage_atomic st loanAmount minExpectedProfit =
        (.ok v, st') → st'.bot.is_executing = false) ∧
    (st.bot.is_executing = false → loanAmount ≠ 0 → minExpectedProfit ≠ 0 →
      ∀ e st', execute_arbitrage_atomic st loanAmount minExpectedProfit =
        (.error e, st') → st'.bot.is_executing = true) := by
  refine ⟨?_, ?_, ?_⟩
  · intro h
    unfold execute_arbitrage_atomic
    rw [if_pos (by simp [h])]
  · intro v st' h
    by_cases hex : st.bot.is_executing
    · unfold execute_arbitrage_atomic at h
      rw [if_pos (by simp [hex])] at h
      simp at h
    · by_cases ha : loanAmount = 0
      · unfold execute_arbitrage_atomic at h
        rw [if_neg (by simp [hex]), if_pos ha] at h
        simp at h
      · by_cases hp : minExpectedProfit = 0
        · unfold execute_arbitrage_atomic at h
          rw [if_neg (by simp [hex]), if_neg ha, if_pos hp] at h
          simp at h
        · have hb := (execute_arbitrage_atomic_bot st loanAmount minExpectedProfit
            (by simp at hex; exact hex) ha hp).2 v st' h
          rw [hb]
  · intro hex ha hp e st' h
    have hb := (execute_arbitrage_atomic_bot st loanAmount minExpectedProfit
      hex ha hp).1 e st' h
    rw [hb]

/-- Witness for the amended C3 theorem: a concrete call on an executing
session fails with `ReentrancyDetected`. -/
theorem c3_reentrancy_latch_witness :
    execute_arbitrage_atomic ⟨⟨true, 0, 0⟩, ⟨1, 1, "a"⟩, ⟨1, 1, "a"⟩, 0, 0, 0⟩ 5 5 =
      (.error .reentrancyDetected,
       ⟨⟨true, 0, 0⟩, ⟨1, 1, "a"⟩, ⟨1, 1, "a"⟩, 0, 0, 0⟩) :=
  (c3_reentrancy_latch ⟨⟨true, 0, 0⟩, ⟨1, 1, "a"⟩, ⟨1, 1, "a"⟩, 0, 0, 0⟩ 5 5).1 rfl

/-- Claim C3 is false on the code as stated: a concrete call that passes
validation and then fails (first swap hits `InsufficientLiquidity`)
returns with `is_executing` still true. -/
theorem c3_flag_left_set_refuted :
    (execute_arbitrage_atomic ⟨⟨false, 0, 0⟩, ⟨1000000, 100, "test-pool"⟩,
        ⟨1000000, 1000000, "test-pool"⟩, 10000, 0, 0⟩ 10000 1).1 =
      .error (.dex .insufficientLiquidity) ∧
    (execute_arbitrage_atomic ⟨⟨false, 0, 0⟩, ⟨1000000, 100, "test-pool"⟩,
        ⟨1000000, 1000000, "test-pool"⟩, 10000, 0, 0⟩ 10000 1).2.bot.is_executing =
      true :=
  ⟨by decide, by decide⟩

/-- Claim C8 (amended): provided the u64 trade counter does not overflow,
every call that passes input validation bumps `total_trades` by exactly 1 —
including calls that fail later — and `total_profit` is unchanged on every
error and grows by the returned profit on success provided its u64
accumulation does not overflow. -/
theorem c8_trade_counter (st : ArbAccounts) (a p : Nat)
    (hex : st.bot.is_executing = false) (ha : a ≠ 0) (hp : p ≠ 0)
    (htr : st.bot.total_trades + 1 < WORD) :
    (execute_arbitrage_atomic st a p).2.bot.total_trades =
      st.bot.total_trades + 1 ∧
    (∀ e, (execute_arbitrage_atomic st a p).1 = .error e →
      (execute_arbitrage_atomic st a p).2.bot.total_profit =
        st.bot.total_profit) ∧
    (∀ v, (execute_arbitrage_atomic st a p).1 = .ok v →
      st.bot.total_profit + v < WORD →
      (execute_arbitrage_atomic st a p).2.bot.total_profit =
        st.bot.total_profit + v) := by
  obtain ⟨herr, hok⟩ := execute_arbitrage_atomic_bot st a p hex ha hp
  refine ⟨?_, ?_, ?_⟩
  · rcases hres : execute_arbitrage_atomic st a p with ⟨r, st'⟩
    cases r with
    | error e =>
      have hb := herr e st' hres
      simp [hb, u64add_eq _ _ htr]
    | ok v =>
      have hb := hok v st' hres
      simp [hb, u64add_eq _ _ htr]
  · intro e he
    rcases hres : execute_arbitrage_atomic st a p with ⟨r, st'⟩
    rw [hres] at he
    simp only at he
    subst he
    have hb := herr e st' hres
    simp [hb]
  · intro v hv hlt
    rcases hres : execute_arbitrage_atomic st a p with ⟨r, st'⟩
    rw [hres] at hv
    simp only at hv
    subst hv
    have hb := hok v st' hres
    simp [hb, u64add_eq _ _ hlt]

/-- Witness for the amended C8 theorem on a concrete successful call. -/
theorem c8_trade_counter_witness :
    (execute_arbitrage_atomic ⟨⟨false, 0, 0⟩, ⟨1000000, 1000000, "test-pool"⟩,
        ⟨1000000, 1000000, "test-pool"⟩, 10000, 10061, 0⟩ 10000 1).2.bot.total_trades =
      0 + 1 :=
  (c8_trade_counter ⟨⟨false, 0, 0⟩, ⟨1000000, 1000000, "test-pool"⟩,
      ⟨1000000, 1000000, "test-pool"⟩, 10000, 10061, 0⟩ 10000 1
    rfl (by decide) (by decide) (by decide)).1

/-- Claim C8 is false on the code without an overflow proviso: a successful
call on a session whose `total_profit` is `2^64 - 1` wraps the counter down
to 10,000, a decrease. -/
theorem c8_profit_wraps_refuted :
    (execute_arbitrage_atomic ⟨⟨false, 5, 2 ^ 64 - 1⟩, ⟨1000000, 1000000, "test-pool"⟩,
        ⟨1000000, 1000000, "test-pool"⟩, 10000, 10061, 0⟩ 10000 1).1 = .ok 10001 ∧
    (execute_arbitrage_atomic ⟨⟨false, 5, 2 ^ 64 - 1⟩, ⟨1000000, 1000000, "test-pool"⟩,
        ⟨1000000, 1000000, "test-pool"⟩, 10000, 10061, 0⟩ 10000 1).2.bot.total_profit =
      10000 ∧
    10000 < 2 ^ 64 - 1 :=
  ⟨by decide, by decide, by decide⟩

/-- Claim C5 (amended): provided the u64 counters do not overflow, loan
issuance decrements the pool balance by exactly `amount` and increments
`total_borrowed` by `amount`, with the bookkeeping step strictly before the
lamport transfer (the bookkeeping state already carries the new balance and
leaves the lamports untouched); repayment fails with
`InsufficientFundsForRepayment` exactly when the borrower's lamports are
below `amount + fee`, and otherwise increments the pool balance and
`total_repaid` by exactly `amount + fee`, again bookkeeping before the
transfer. -/
theorem c5_loan_pool_bookkeeping (st stR : FlashAccounts) (amount fee : Nat) :
    (amount ≤ st.pool.balance → st.pool.balance < WORD →
     st.pool.total_borrowed + amount < WORD →
      (execute_loan st amount).pool.balance = st.pool.balance - amount ∧
      (execute_loan st amount).pool.total_borrowed =
        st.pool.total_borrowed + amount ∧
      execute_loan st amount = loanTransfer (loanBookkeeping st amount) amount ∧
      (loanBookkeeping st amount).pool = (execute_loan st amount).pool ∧
      (loanBookkeeping st amount).poolLamports = st.poolLamports ∧
      (loanBookkeeping st amount).borrowerLamports = st.borrowerLamports) ∧
    (amount + fee < WORD →
      (stR.borrowerLamports < amount + fee →
        process_repayment stR amount fee = .error .insufficientFundsForRepayment) ∧
      (amount + fee ≤ stR.borrowerLamports →
        process_repayment stR amount fee =
          .ok (repayTransfer (repayBookkeeping stR (amount + fee)) (amount + fee)) ∧
        (stR.pool.balance + (amount + fee) < WORD →
          (repayBookkeeping stR (amount + fee)).pool.balance =
            stR.pool.balance + (amount + fee)) ∧
        (stR.pool.total_repaid + (amount + fee) < WORD →
          (repayBookkeeping stR (amount + fee)).pool.total_repaid =
            stR.pool.total_repaid + (amount + fee)) ∧
        (repayBookkeeping stR (amount + fee)).borrowerLamports =
          stR.borrowerLamports ∧
        (repayTransfer (repayBookkeeping stR (amount + fee)) (amount + fee)).pool =
          (repayBookkeeping stR (amount + fee)).pool)) := by
  constructor
  · intro h1 h2 h3
    refine ⟨?_, ?_, rfl, rfl, rfl, rfl⟩
    · show u64sub st.pool.balance amount = st.pool.balance - amount
      exact u64sub_eq _ _ h1 h2
    · show u64add st.pool.total_borrowed amount = st.pool.total_borrowed + amount
      exact u64add_eq _ _ h3
  · intro hfee
    have htot : u64add amount fee = amount + fee := u64add_eq _ _ hfee
    constructor
    · intro hlt
      unfold process_repayment
      rw [htot, if_pos hlt]
    · intro hge
      refine ⟨?_, ?_, ?_, rfl, rfl⟩
      · unfold process_repayment
        rw [htot, if_neg (by omega)]
      · intro hb
        show u64add stR.pool.balance (amount + fee) =
          stR.pool.balance + (amount + fee)
        exact u64add_eq _ _ hb
      · intro hr
        show u64add stR.pool.total_repaid (amount + fee) =
          stR.pool.total_repaid + (amount + fee)
        exact u64add_eq _ _ hr

/-- Witness for the amended C5 theorem: a concrete issuance of 100 out of a
1,000-balance pool leaves balance 900. -/
theorem c5_loan_witness :
    (execute_loan ⟨⟨1000, 30, 5, 7, .active⟩, 2000, 50,
        ⟨⟨false, 0, 0⟩, ⟨1, 1, "a"⟩, ⟨1, 1, "a"⟩, 0, 0, 0⟩, none⟩ 100).pool.balance =
      900 :=
  ((c5_loan_pool_bookkeeping ⟨⟨1000, 30, 5, 7, .active⟩, 2000, 50,
      ⟨⟨false, 0, 0⟩, ⟨1, 1, "a"⟩, ⟨1, 1, "a"⟩, 0, 0, 0⟩, none⟩
    ⟨⟨1000, 30, 5, 7, .active⟩, 2000, 50,
      ⟨⟨false, 0, 0⟩, ⟨1, 1, "a"⟩, ⟨1, 1, "a"⟩, 0, 0, 0⟩, none⟩ 100 3).1
    (by decide) (by decide) (by decide)).1

/-- Claim C5 is false on the code without an overflow proviso: an issuance
of `2^63` that passes the coordinator's checks on a pool whose
`total_borrowed` is already `2^63` wraps the unchecked u64 `+=` down to 0
instead of increasing it by the amount. -/
theorem c5_borrow_counter_wraps_refuted :
    validate_and_prepare ⟨⟨2 ^ 63 + 10, 0, 2 ^ 63, 0, .active⟩, 2 ^ 64 - 1, 0,
        ⟨⟨false, 0, 0⟩, ⟨1, 1, "a"⟩, ⟨1, 1, "a"⟩, 0, 0, 0⟩, none⟩ (2 ^ 63) = .ok 0 ∧
    (execute_loan ⟨⟨2 ^ 63 + 10, 0, 2 ^ 63, 0, .active⟩, 2 ^ 64 - 1, 0,
        ⟨⟨false, 0, 0⟩, ⟨1, 1, "a"⟩, ⟨1, 1, "a"⟩, 0, 0, 0⟩, none⟩
      (2 ^ 63)).pool.total_borrowed = 0 ∧
    (0 : Nat) ≠ 2 ^ 63 + 2 ^ 63 :=
  ⟨by decide, by decide, by decide⟩

/-- Claim C6 (amended): `calculate_fee` always succeeds for u64 `amount`
and u16 `fee_bps` (the widened 128-bit product always fits), and returns
`floor(amount * fee_bps / 10000)` truncated to 64 bits by the `as u64`
cast — exact whenever `fee_bps ≤ 10000`, and in particular for every valid
pool fee rate (initialization bounds it by 1000). -/
theorem c6_calculate_fee (p : MockPoolState) (amount : Nat)
    (h1 : amount < WORD) (h2 : p.fee_bps < 2 ^ 16) :
    calculate_fee p amount = some ((amount * p.fee_bps / 10000) % WORD) ∧
    (p.fee_bps ≤ 10000 →
      (amount * p.fee_bps / 10000) % WORD = amount * p.fee_bps / 10000) := by
  constructor
  · unfold calculate_fee
    rw [if_pos]
    calc amount * p.fee_bps ≤ amount * (2 ^ 16 - 1) :=
          Nat.mul_le_mul_left amount (by omega)
      _ < WORD * (2 ^ 16 - 1) + (2 ^ 16 - 1) := by
          have := Nat.mul_le_mul_right (2 ^ 16 - 1) (Nat.le_of_lt_succ (by omega : amount < Nat.succ (WORD - 1)))
          omega
      _ < 2 ^ 128 := by decide
  · intro hbps
    have hq : amount * p.fee_bps / 10000 ≤ amount := by
      calc amount * p.fee_bps / 10000 ≤ amount * 10000 / 10000 :=
            Nat.div_le_div_right (Nat.mul_le_mul_left amount hbps)
        _ = amount := Nat.mul_div_cancel amount (by omega)
    exact Nat.mod_eq_of_lt (by omega)

/-- Witness for the amended C6 theorem: `CalculateFee(1_000_000)` at 30 bps
is exactly 3,000. -/
theorem c6_calculate_fee_witness :
    calculate_fee ⟨0, 30, 0, 0, .active⟩ 1000000 = some 3000 :=
  ((c6_calculate_fee ⟨0, 30, 0, 0, .active⟩ 1000000 (by decide) (by decide)).1).trans
    (by decide)

/-- Claim C6 is false on the code as stated: at `amount = 2^64 - 1` and
`fee_bps = 65535` the mathematical quotient exceeds u64, and instead of
failing the function silently truncates it modulo `2^64`. -/
theorem c6_truncation_refuted :
    calculate_fee ⟨0, 65535, 0, 0, .active⟩ (2 ^ 64 - 1) =
      some 10210272844798236812 ∧
    (2 ^ 64 - 1) * 65535 / 10000 = 120890737287055546508 ∧
    (10210272844798236812 : Nat) ≠ 120890737287055546508 :=
  ⟨by decide, by decide, by decide⟩

/-- Claim C7: for every amount whose intermediate products fit in u64, the
minimum-output estimate is
`floor(floor(amount * 9970 / 10000) * 9000 / 10000)`, and both the first
swap (on the loan amount) and the second swap (on the first swap's output)
pass exactly this estimate as their `min_amount_out`. -/
theorem c7_min_amount_out_formula (a : Nat) (h1 : a * 9970 < WORD)
    (h2 : a * 9970 / 10000 * 9000 < WORD) :
    calculate_min_amount_out a = .ok (a * 9970 / 10000 * 9000 / 10000) ∧
    (∀ st m, calculate_min_amount_out a = .ok m →
      execute_first_swap st a =
        (((MockDex.swap st.dexPoolA true st.tokenInBal st.userTokenY a m).map
          (fun r => ({ st with dexPoolA := r.1, tokenInBal := r.2.1,
                               userTokenY := r.2.2.1 }, r.2.2.1))).mapError
          ArbError.dex)) ∧
    (∀ st y m, calculate_min_amount_out y = .ok m →
      execute_second_swap st y =
        (((MockDex.swap st.dexPoolB false st.userTokenY st.userTokenX y m).map
          (fun r => ({ st with dexPoolB := r.1, userTokenY := r.2.1,
                               userTokenX := r.2.2.1 }, r.2.2.1))).mapError
          ArbError.dex)) := by
  refine ⟨?_, ?_, ?_⟩
  · unfold calculate_min_amount_out
    have hm1 : checkedMul a 9970 = some (a * 9970) := by
      unfold checkedMul; rw [if_pos h1]
    rw [hm1]
    simp only
    have hm2 : checkedMul (a * 9970 / 10000) 9000 =
        some (a * 9970 / 10000 * 9000) := by
      unfold checkedMul; rw [if_pos h2]
    rw [hm2]
  · intro st m hm
    unfold execute_first_swap
    rw [hm]
    simp only
    cases hs : MockDex.swap st.dexPoolA true st.tokenInBal st.userTokenY a m with
    | error e => simp [Except.map, Except.mapError]
    | ok r4 =>
      obtain ⟨pA, fB, tB, out⟩ := r4
      simp [Except.map, Except.mapError]
  · intro st y m hm
    unfold execute_second_swap
    rw [hm]
    simp only
    cases hs : MockDex.swap st.dexPoolB false st.userTokenY st.userTokenX y m with
    | error e => simp [Except.map, Except.mapError]
    | ok r4 =>
      obtain ⟨pB, fB, tB, out⟩ := r4
      simp [Except.map, Except.mapError]

/-- Witness for the C7 theorem: `minAmountOut(10000) = 8973`. -/
theorem c7_min_amount_out_formula_witness :
    calculate_min_amount_out 10000 = .ok 8973 :=
  ((c7_min_amount_out_formula 10000 (by decide) (by decide)).1).trans (by decide)

/-- Claim C9: every completed transaction creates a record whose
`loan_amount`, `fee` and `profit` are the values used in the transaction
and whose `net_profit` is `profit - fee` saturating at zero, hence never
exceeding `profit`. -/
theorem c9_transaction_record (st : FlashAccounts) (amount p now : Nat)
    (st' : FlashAccounts)
    (h : atomic_flash_loan_with_arbitrage st amount p now = (.ok (), st')) :
    ∃ fee profit,
      validate_and_prepare st amount = .ok fee ∧
      (ArbitrageBot.execute_arbitrage_atomic (execute_loan st amount).arb
        amount p).1 = .ok profit ∧
      st'.record = some ⟨now, amount, fee, profit, profit - fee, now⟩ ∧
      profit - fee ≤ profit := by
  unfold atomic_flash_loan_with_arbitrage at h
  cases hv : validate_and_prepare st amount with
  | error e => rw [hv] at h; simp at h
  | ok fee =>
    rw [hv] at h
    simp only at h
    rcases harb : ArbitrageBot.execute_arbitrage_atomic (execute_loan st amount).arb
        amount p with ⟨r, arb1⟩
    rw [harb] at h
    cases r with
    | error e => simp at h
    | ok profit =>
      simp only at h
      cases hrep : process_repayment { execute_loan st amount with arb := arb1 }
          amount fee with
      | error e => rw [hrep] at h; simp at h
      | ok st3 =>
        rw [hrep] at h
        simp only [Prod.mk.injEq, true_and] at h
        refine ⟨fee, profit, rfl, rfl, ?_, Nat.sub_le _ _⟩
        rw [← h]
        rfl

/-- Witness for the C9 theorem on a concrete completed transaction. -/
theorem c9_transaction_record_witness :
    ∃ fee profit,
      validate_and_prepare ⟨⟨1000000, 30, 0, 0, .active⟩, 1000000, 1000,
        ⟨⟨false, 0, 0⟩, ⟨1000000, 1000000, "test-pool"⟩,
         ⟨1000000, 1000000, "test-pool"⟩, 10000, 10061, 0⟩, none⟩ 10000 = .ok fee ∧
      (ArbitrageBot.execute_arbitrage_atomic
        (execute_loan ⟨⟨1000000, 30, 0, 0, .active⟩, 1000000, 1000,
          ⟨⟨false, 0, 0⟩, ⟨1000000, 1000000, "test-pool"⟩,
           ⟨1000000, 1000000, "test-pool"⟩, 10000, 10061, 0⟩, none⟩ 10000).arb
        10000 1).1 = .ok profit ∧
      (atomic_flash_loan_with_arbitrage ⟨⟨1000000, 30, 0, 0, .active⟩, 1000000, 1000,
        ⟨⟨false, 0, 0⟩, ⟨1000000, 1000000, "test-pool"⟩,
         ⟨1000000, 1000000, "test-pool"⟩, 10000, 10061, 0⟩, none⟩
        10000 1 777).2.record = some ⟨777, 10000, fee, profit, profit - fee, 777⟩ ∧
      profit - fee ≤ profit :=
  c9_transaction_record _ 10000 1 777 _ (by decide)

/-- Claim C10: the utilization computation is total — it returns 0 when
`balance + total_borrowed = 0`, and otherwise, provided `total_borrowed`
is at most `u64::MAX / 10000` and the sum does not overflow u64, returns
`floor(total_borrowed * 10000 / (balance + total_borrowed))`, which is at
most 10000 basis points. -/
theorem c10_utilization_rate (p : MockPoolState) :
    (p.balance + p.total_borrowed = 0 → get_utilization_rate p = 0) ∧
    (p.total_borrowed ≤ (WORD - 1) / 10000 →
     p.balance + p.total_borrowed < WORD →
     p.balance + p.total_borrowed ≠ 0 →
      get_utilization_rate p =
        p.total_borrowed * 10000 / (p.balance + p.total_borrowed) ∧
      get_utilization_rate p ≤ 10000) := by
  constructor
  · intro h
    unfold get_utilization_rate
    rw [h]
    simp
  · intro h1 h2 h3
    unfold get_utilization_rate
    rw [Nat.mod_eq_of_lt h2, if_neg h3]
    have hmul : p.total_borrowed * 10000 < WORD := by
      have ha : p.total_borrowed * 10000 ≤ (WORD - 1) / 10000 * 10000 :=
        Nat.mul_le_mul_right _ h1
      have hb : (WORD - 1) / 10000 * 10000 ≤ WORD - 1 := Nat.div_mul_le_self _ _
      omega
    rw [Nat.mod_eq_of_lt hmul]
    refine ⟨rfl, ?_⟩
    have hle : p.total_borrowed * 10000 ≤ (p.balance + p.total_borrowed) * 10000 :=
      Nat.mul_le_mul_right _ (by omega)
    calc p.total_borrowed * 10000 / (p.balance + p.total_borrowed)
        ≤ (p.balance + p.total_borrowed) * 10000 / (p.balance + p.total_borrowed) :=
          Nat.div_le_div_right hle
      _ = 10000 := Nat.mul_div_cancel_left _ (by omega)

/-- Witness for the C10 theorem: utilization of a pool with balance 3 and
total_borrowed 1 is 2,500 bps. -/
theorem c10_utilization_rate_witness :
    get_utilization_rate ⟨3, 0, 1, 0, .active⟩ = 2500 :=
  (((c10_utilization_rate ⟨3, 0, 1, 0, .active⟩).2 (by decide) (by decide)
    (by decide)).1).trans (by decide)
